import Mathlib

/-!
Shallow embedding of the inventory reconciliation core of the
`blogpost-distributed-consistency` repository, with proofs checking the
natural-language specification against it.

The embedding follows the Python source:
* `src/models/sql_.py` — entity model (`Warehouse.capacity`, `NamedMixin`,
  `camel_to_lower_with_spaces`);
* `src/models/requests_.py` — request validation (`DeliveryPosition`,
  `WarehousePatch`);
* `src/repositories/sql_.py` — `SQLRepository` and its specializations;
* `src/routers/delivery.py` — the delivery handler `create`;
* `src/routers/warehouses.py` — the warehouse patch handler
  `update_warehouse`.

UUIDs are embedded as `Nat`, Python `int` as `Int`, timestamps are dropped
(rows are kept in creation order where ordering matters), and the SQL store
is a record of row lists.  A handler runs inside one transaction: staged
changes are applied to a functional copy of the store and written back only
on commit, so a rollback is embedded as returning the original store.

One behaviour of the source needs care: the delivery handler reads
`warehouse.capacity`, a computed field over the ORM relationship
`warehouse.stock`.  SQLAlchemy loads that collection lazily on first access
(the first loop iteration) and caches it on the instance; `session.flush()`
does not expire it.  Increments to an existing `StockPosition` mutate the
identity-mapped objects inside the cached collection and are therefore
visible to later capacity checks, while rows *created* during the same
delivery (via `session.add`) are never inserted into the cached collection
and stay invisible to it until the post-commit refresh.  The pair lookup
`find_by_warehouse_id_and_material_id`, in contrast, issues a fresh SELECT
(with autoflush) and does see rows created earlier in the same delivery.
The embedding keeps two components of session state to mirror this:
`rows` (the stock table as loaded, mutated in place by increments) and
`created` (rows staged for insertion in this delivery).
-/

namespace Factory

/-! ## Data model (src/models/sql_.py) -/

/-- Warehouse row (models/sql_.py lines 221-260): name, slug, location and
`max_capacity` (integer, declared `ge=1`, default 1000000). -/
structure Warehouse where
  id : Nat
  name : String
  slug : String
  location : String
  max_capacity : Int
  deriving DecidableEq

/-- StockPosition row (models/sql_.py lines 132-161): one warehouse, one
material, an integer quantity (default 0, no declared lower bound). -/
structure StockPosition where
  warehouse_id : Nat
  material_id : Nat
  quantity : Int
  deriving DecidableEq

/-- The relational store: warehouses, the set of existing material ids
(material rows reduced to what the delivery path consults), and the stock
table kept in creation order. -/
structure DB where
  warehouses : List Warehouse
  materials : List Nat
  stock : List StockPosition
  deriving DecidableEq

/-- Sum of the quantities of a list of stock rows. -/
def sumQ (rows : List StockPosition) : Int :=
  (rows.map (fun r => r.quantity)).sum

/-- The stock rows of one warehouse. -/
def stockOf (db : DB) (wid : Nat) : List StockPosition :=
  db.stock.filter (fun r => r.warehouse_id == wid)

/-- Warehouse.capacity (models/sql_.py lines 262-266): a computed,
non-persisted field; `none` embeds `self.stock is None` (relationship not
loaded), in which case the source returns `max_capacity`. -/
def Warehouse.capacity (w : Warehouse) (stock : Option (List StockPosition)) : Int :=
  match stock with
  | none => w.max_capacity
  | some rows => w.max_capacity - sumQ rows

/-! ## Identifier deriver (spec section 4.1, NamedMixin in src/models/sql_.py) -/

/-- Characters kept by slug derivation: lowercase ASCII letters and digits. -/
def isSlugKeep (c : Char) : Bool :=
  (decide ('a' ≤ c) && decide (c ≤ 'z')) || (decide ('0' ≤ c) && decide (c ≤ '9'))

/-- Modelled from the spec: the body of the Identifier Deriver.  The running
system calls the third-party `python-slugify` library (`slugify`), which is
not part of the repository source; the spec contract (section 4.1) is a
pure function producing a lowercase ASCII letters/digits/hyphens token.
`started` records that a kept character was emitted and no hyphen was
emitted since, so separator characters collapse into single interior
hyphens and never lead or trail. -/
def slugAux : Bool → List Char → List Char
  | _, [] => []
  | started, c :: cs =>
      if isSlugKeep c then c :: slugAux true cs
      else if started && cs.any isSlugKeep then '-' :: slugAux false cs
      else slugAux started cs

/-- Modelled from the spec: `slugify` (python-slugify), the Identifier
Deriver called by `NamedMixin.__init__`; lowercases and keeps alphanumeric
runs joined by single hyphens. -/
def slugify (name : String) : String :=
  String.mk (slugAux false (name.toList.map Char.toLower))

/-- Validation failure (pydantic ValidationError). -/
structure ValidationError where
  msg : String
  deriving DecidableEq

/-- Modelled from the spec: slug assignment at entity construction.  The
call `data["slug"] = slugify(data["name"])` when no explicit slug is given
is `NamedMixin.__init__` (models/sql_.py lines 52-55); the rejection of an
empty derived slug embeds the declared constraint
`slug: str = Field(..., min_length=1)` together with the spec contract of a
ValidationError when the derived result is empty (the enforcement machinery
is pydantic, outside the repository source). -/
def NamedMixin.init (name : String) (explicitSlug : Option String) :
    Except ValidationError String :=
  let s := explicitSlug.getD (slugify name)
  if s = "" then .error ⟨"slug must have at least 1 character"⟩ else .ok s

/-- Transformation of a model class name into the human-readable name used
in repository error messages (models/sql_.py lines 269-275), e.g.
`StockPosition` to `stock position`.  `first` is true at index 0. -/
def camelGo : Bool → List Char → List Char
  | _, [] => []
  | first, c :: cs =>
      (if c.isUpper && !first then [' ', c.toLower] else [c.toLower]) ++ camelGo false cs

/-- Source function `camel_to_lower_with_spaces` (models/sql_.py 269-275). -/
def camel_to_lower_with_spaces (s : String) : String :=
  String.mk (camelGo true s.toList)

/-! ## Request validation (src/models/requests_.py) -/

/-- One line item of a delivery request (requests_.py lines 75-79):
`material_id: uuid.UUID` and `quantity: int` with no declared bound. -/
structure DeliveryPosition where
  material_id : Nat
  quantity : Int
  deriving DecidableEq

/-- Delivery request body (requests_.py lines 82-86). -/
structure Delivery where
  warehouse_id : Nat
  positions : List DeliveryPosition
  deriving DecidableEq

/-- Pydantic validation of a delivery line item as declared by
`DeliveryPosition` (requests_.py lines 75-79): the fields are typed but no
constraint is placed on `quantity`, so every integer is accepted. -/
def validateDeliveryPosition (material_id : Nat) (quantity : Int) :
    Except ValidationError DeliveryPosition :=
  .ok ⟨material_id, quantity⟩

/-- Warehouse patch request body (requests_.py lines 62-72). -/
structure WarehousePatch where
  location : Option String
  max_capacity : Option Int
  deriving DecidableEq

/-- Pydantic validation declared on `WarehousePatch` (requests_.py 62-72):
`location` has `min_length=2` and `max_capacity` has `ge=1`. -/
def WarehousePatch.valid (p : WarehousePatch) : Prop :=
  (∀ l, p.location = some l → 2 ≤ l.length) ∧
  (∀ m, p.max_capacity = some m → 1 ≤ m)

/-! ## Repository layer (src/repositories/sql_.py) -/

/-- RepositoryException payload (repositories/base.py line 10): the source
distinguishes failures only by exception message. -/
structure RepoError where
  msg : String
  deriving DecidableEq

/-- The configuration error raised by every repository operation when no
session is bound (repositories/sql_.py, the guard at the top of each
method). -/
def sessionGuardError : RepoError := ⟨"database session not initialized"⟩

/-- The not-found error raised when a query returns no row
(repositories/sql_.py, the `except NoResultFound` branches). -/
def notFoundErr (modelName : String) : RepoError := ⟨modelName ++ " not found"⟩

/-- Outcome of one repository operation: a value, a RepositoryException, or
some other raised exception (e.g. `MultipleResultsFound` from `.one()`,
which the source does not convert into a RepositoryException). -/
inductive RepoResult (α : Type) where
  | ok (val : α)
  | err (e : RepoError)
  | raised
  deriving DecidableEq

/-- SQLRepository (repositories/sql_.py lines 14-68): holds an optional
bound session; the session is embedded as the list of rows it gives access
to, in creation order. -/
structure SQLRepository (α : Type) where
  session : Option (List α)

/-- find_by_id (repositories/sql_.py lines 24-32): session guard, then
`.one()` over rows matching the id. -/
def SQLRepository.find_by_id {α : Type} (repo : SQLRepository α)
    (idOf : α → Nat) (modelName : String) (id : Nat) : RepoResult α :=
  match repo.session with
  | none => .err sessionGuardError
  | some rows =>
      match rows.filter (fun r => idOf r == id) with
      | [r] => .ok r
      | [] => .err (notFoundErr modelName)
      | _ => .raised

/-- find_by_slug (repositories/sql_.py lines 34-42). -/
def SQLRepository.find_by_slug {α : Type} (repo : SQLRepository α)
    (slugOf : α → String) (modelName : String) (slug : String) : RepoResult α :=
  match repo.session with
  | none => .err sessionGuardError
  | some rows =>
      match rows.filter (fun r => slugOf r == slug) with
      | [r] => .ok r
      | [] => .err (notFoundErr modelName)
      | _ => .raised

/-- list_paginated (repositories/sql_.py lines 44-49): session guard, then
order by `created_at` (rows are kept in that order), offset, limit. -/
def SQLRepository.list_paginated {α : Type} (repo : SQLRepository α)
    (offset limit : Nat) : RepoResult (List α) :=
  match repo.session with
  | none => .err sessionGuardError
  | some rows => .ok ((rows.drop offset).take limit)

/-- create (repositories/sql_.py lines 51-56): session guard, then
`session.add` + `flush`, staging the record; returns the staged rows. -/
def SQLRepository.create {α : Type} (repo : SQLRepository α) (record : α) :
    RepoResult (List α) :=
  match repo.session with
  | none => .err sessionGuardError
  | some rows => .ok (rows ++ [record])

/-- update (repositories/sql_.py lines 58-63): session guard, then
`session.add` + `flush` of an identity-mapped record whose in-place
mutation is already part of `rows`. -/
def SQLRepository.update {α : Type} (repo : SQLRepository α) (record : α) :
    RepoResult (List α) :=
  match repo.session with
  | none => .err sessionGuardError
  | some rows =>
      let _ := record
      .ok rows

/-- delete (repositories/sql_.py lines 65-68): session guard, then
`session.delete(record)`. -/
def SQLRepository.delete {α : Type} [DecidableEq α] (repo : SQLRepository α)
    (record : α) : RepoResult (List α) :=
  match repo.session with
  | none => .err sessionGuardError
  | some rows => .ok (rows.erase record)

/-- The stock rows matching one (warehouse, material) pair. -/
def matchesPair (wid m : Nat) (rows : List StockPosition) : List StockPosition :=
  rows.filter (fun r => r.warehouse_id == wid && r.material_id == m)

/-- find_by_warehouse_id_and_material_id
(repositories/sql_.py lines 85-97): the pair lookup of the
StockPositionSQLRepository; `.one()` over the rows matching the pair. -/
def StockPositionSQLRepository.find_by_warehouse_id_and_material_id
    (repo : SQLRepository StockPosition) (warehouse_id material_id : Nat) :
    RepoResult StockPosition :=
  match repo.session with
  | none => .err sessionGuardError
  | some rows =>
      match matchesPair warehouse_id material_id rows with
      | [r] => .ok r
      | [] => .err (notFoundErr (camel_to_lower_with_spaces "StockPosition"))
      | _ => .raised

/-! ## Delivery reconciliation engine (src/routers/delivery.py) -/

/-- Failure inside the delivery loop: the HTTP 400 CapacityExceeded
exception (delivery.py lines 56-61), an IntegrityError raised by the store
at flush/commit, or an exception that escapes to the generic handler
(`MultipleResultsFound`). -/
inductive LoopError where
  | capacityExceeded
  | integrityViolation
  | multipleResults
  deriving DecidableEq

/-- Increments the quantity of the first stock row matching the pair
(`stock.quantity += position.quantity` on the identity-mapped object,
delivery.py line 67). -/
def bumpFirst (wid m : Nat) (q : Int) : List StockPosition → List StockPosition
  | [] => []
  | r :: rs =>
      if r.warehouse_id = wid ∧ r.material_id = m then
        { r with quantity := r.quantity + q } :: rs
      else r :: bumpFirst wid m q rs

/-- One iteration of the delivery loop (delivery.py lines 55-75) over the
session state.  `rows` is the stock table as loaded into the session, with
increments applied in place; `created` holds rows staged by
`stock_position_repository.create` in this delivery.  The capacity check on
line 56 reads the cached relationship collection, i.e. only the
warehouse's rows inside `rows`; the pair lookup on lines 63-66 runs a fresh
SELECT and sees `rows ++ created`.  `fk` states whether the store enforces
foreign keys: if it does, flushing a created row whose material id does not
exist raises IntegrityError. -/
def deliveryStep (fk : Bool) (mats : List Nat) (w : Warehouse)
    (rows created : List StockPosition) (p : DeliveryPosition) :
    Except LoopError (List StockPosition × List StockPosition) :=
  if Warehouse.capacity w (some (rows.filter (fun r => r.warehouse_id == w.id))) < p.quantity then
    .error .capacityExceeded
  else
    match matchesPair w.id p.material_id (rows ++ created) with
    | [] =>
        if fk ∧ p.material_id ∉ mats then .error .integrityViolation
        else .ok (rows, created ++ [⟨w.id, p.material_id, p.quantity⟩])
    | [_] =>
        if (matchesPair w.id p.material_id rows).isEmpty then
          .ok (rows, bumpFirst w.id p.material_id p.quantity created)
        else
          .ok (bumpFirst w.id p.material_id p.quantity rows, created)
    | _ :: _ :: _ => .error .multipleResults

/-- The loop `for position in delivery.positions` (delivery.py 55-75). -/
def processPositions (fk : Bool) (mats : List Nat) (w : Warehouse) :
    List StockPosition → List StockPosition → List DeliveryPosition →
    Except LoopError (List StockPosition × List StockPosition)
  | rows, created, [] => .ok (rows, created)
  | rows, created, p :: ps =>
      match deliveryStep fk mats w rows created p with
      | .error e => .error e
      | .ok (rows', created') => processPositions fk mats w rows' created' ps

/-- WarehouseResponse (responses_.py lines 64-79), as built by
`model_validate` on the post-commit refreshed warehouse: `capacity` is
recomputed from the reloaded stock relationship. -/
structure WarehouseResponse where
  id : Nat
  name : String
  slug : String
  location : String
  max_capacity : Int
  capacity : Int
  stock : List StockPosition
  deriving DecidableEq

/-- Builds the response for a warehouse whose (reloaded) stock rows are
`mine`. -/
def warehouseResponse (w : Warehouse) (mine : List StockPosition) : WarehouseResponse :=
  { id := w.id, name := w.name, slug := w.slug, location := w.location,
    max_capacity := w.max_capacity,
    capacity := Warehouse.capacity w (some mine),
    stock := mine }

/-- Outcome of the delivery handler, by HTTP status of the response: 201
with the refreshed warehouse, 400 (CapacityExceeded), 404 (NotFound, which
other routers produce), 409 (Conflict, from IntegrityError), 500 (the
generic `except Exception` handler).  Every constructor carries the store
after the request: errors roll the transaction back, so they carry the
original store. -/
inductive HandlerResult where
  | ok (db : DB) (resp : WarehouseResponse)
  | badRequest (db : DB)
  | notFound (db : DB)
  | conflict (db : DB)
  | internal (db : DB)
  deriving DecidableEq

/-- HTTP status code of a handler outcome. -/
def HandlerResult.status : HandlerResult → Nat
  | .ok _ _ => 201
  | .badRequest _ => 400
  | .notFound _ => 404
  | .conflict _ => 409
  | .internal _ => 500

/-- The delivery handler `create` (routers/delivery.py lines 51-92).
`find_by_id` for the warehouse raises a RepositoryException when no row
matches; inside this handler that exception is only caught by the final
`except Exception` clause, giving HTTP 500.  A loop failure rolls back; on
success the session commits once and the response is built from the
refreshed warehouse. -/
def DeliveryRouter.create (fk : Bool) (db : DB) (d : Delivery) : HandlerResult :=
  match db.warehouses.filter (fun x => x.id == d.warehouse_id) with
  | [w] =>
      match processPositions fk db.materials w db.stock [] d.positions with
      | .ok (rows', created') =>
          let stockAll := rows' ++ created'
          .ok { db with stock := stockAll }
            (warehouseResponse w (stockAll.filter (fun r => r.warehouse_id == w.id)))
      | .error .capacityExceeded => .badRequest db
      | .error .integrityViolation => .conflict db
      | .error .multipleResults => .internal db
  | _ => .internal db

/-! ## Warehouse patch handler (src/routers/warehouses.py) -/

/-- WarehouseResponseSimple (responses_.py lines 64-71). -/
structure WarehouseResponseSimple where
  name : String
  slug : String
  location : String
  capacity : Int
  max_capacity : Int
  deriving DecidableEq

/-- Outcome of the patch handler: 200 with the response, 404 when the slug
matches no warehouse, 500 when commit raises an exception the handler does
not catch (e.g. IntegrityError on the unique location column). -/
inductive PatchResult where
  | ok (db : DB) (resp : WarehouseResponseSimple)
  | notFound (db : DB)
  | internal (db : DB)
  deriving DecidableEq

/-- The patch handler `update_warehouse` (routers/warehouses.py lines
153-196): find by slug (404 when absent), overwrite `location` and
`max_capacity` when supplied, commit when anything changed (the commit can
violate the unique constraint on `location` against another row, which this
handler does not catch, hence 500), and answer with the warehouse as it
stands after commit or rollback.  No check relates the new `max_capacity`
to the warehouse's existing stock. -/
def WarehousesRouter.update_warehouse (db : DB) (slug : String) (p : WarehousePatch) :
    PatchResult :=
  match db.warehouses.filter (fun x => x.slug == slug) with
  | [w] =>
      let w' : Warehouse := { w with
        location := p.location.getD w.location,
        max_capacity := p.max_capacity.getD w.max_capacity }
      if p.location.isSome || p.max_capacity.isSome then
        if db.warehouses.any (fun x => x.slug != slug && x.location == w'.location) then
          .internal db
        else
          let db' : DB := { db with
            warehouses := db.warehouses.map (fun x => if x.slug == slug then w' else x) }
          .ok db' { name := w'.name, slug := w'.slug, location := w'.location,
                    max_capacity := w'.max_capacity,
                    capacity := Warehouse.capacity w'
                      (some (db'.stock.filter (fun r => r.warehouse_id == w'.id))) }
      else
        .ok db { name := w.name, slug := w.slug, location := w.location,
                 max_capacity := w.max_capacity,
                 capacity := Warehouse.capacity w
                   (some (db.stock.filter (fun r => r.warehouse_id == w.id))) }
  | _ => .notFound db

/-! ## Helper lemmas -/

/-- Total delivered quantity of a list of line items. -/
def sumDelivered (ps : List DeliveryPosition) : Int :=
  (ps.map (fun p => p.quantity)).sum

theorem sumDelivered_cons (p : DeliveryPosition) (ps : List DeliveryPosition) :
    sumDelivered (p :: ps) = p.quantity + sumDelivered ps := by
  simp [sumDelivered]

theorem sumQ_append (a b : List StockPosition) : sumQ (a ++ b) = sumQ a + sumQ b := by
  simp [sumQ]

theorem matchesPair_append (wid m : Nat) (a b : List StockPosition) :
    matchesPair wid m (a ++ b) = matchesPair wid m a ++ matchesPair wid m b := by
  simp [matchesPair, List.filter_append]

theorem sumQ_cons (r : StockPosition) (l : List StockPosition) :
    sumQ (r :: l) = r.quantity + sumQ l := by
  simp [sumQ]

theorem pairPred_true {wid m : Nat} {r : StockPosition}
    (h : r.warehouse_id = wid ∧ r.material_id = m) :
    (r.warehouse_id == wid && r.material_id == m) = true := by
  simp [h.1, h.2]

theorem pairPred_false {wid m : Nat} {r : StockPosition}
    (h : ¬(r.warehouse_id = wid ∧ r.material_id = m)) :
    (r.warehouse_id == wid && r.material_id == m) = false := by
  cases hb : (r.warehouse_id == wid && r.material_id == m) with
  | false => rfl
  | true => exact absurd (by simpa using hb) h

theorem bumpFirst_cons_pos {wid m : Nat} (q : Int) {r : StockPosition}
    (rs : List StockPosition) (h : r.warehouse_id = wid ∧ r.material_id = m) :
    bumpFirst wid m q (r :: rs) = { r with quantity := r.quantity + q } :: rs := by
  rw [bumpFirst, if_pos h]

theorem bumpFirst_cons_neg {wid m : Nat} (q : Int) {r : StockPosition}
    (rs : List StockPosition) (h : ¬(r.warehouse_id = wid ∧ r.material_id = m)) :
    bumpFirst wid m q (r :: rs) = r :: bumpFirst wid m q rs := by
  rw [bumpFirst, if_neg h]

theorem bumpFirst_zero (wid m : Nat) (l : List StockPosition) :
    bumpFirst wid m 0 l = l := by
  induction l with
  | nil => rfl
  | cons r rs ih =>
      by_cases h : r.warehouse_id = wid ∧ r.material_id = m
      · rw [bumpFirst_cons_pos 0 rs h]
        simp
      · rw [bumpFirst_cons_neg 0 rs h, ih]

theorem bumpFirst_warehouse_ids (wid m : Nat) (q : Int) (l : List StockPosition) :
    (bumpFirst wid m q l).map (fun r => r.warehouse_id) = l.map (fun r => r.warehouse_id) := by
  induction l with
  | nil => rfl
  | cons r rs ih =>
      by_cases h : r.warehouse_id = wid ∧ r.material_id = m
      · rw [bumpFirst_cons_pos q rs h]
        simp
      · rw [bumpFirst_cons_neg q rs h]
        simp [ih]

theorem matchesPair_cons_pos {wid m : Nat} {r : StockPosition} (rs : List StockPosition)
    (h : r.warehouse_id = wid ∧ r.material_id = m) :
    matchesPair wid m (r :: rs) = r :: matchesPair wid m rs := by
  simp only [matchesPair, List.filter_cons, pairPred_true h]
  rfl

theorem matchesPair_cons_neg {wid m : Nat} {r : StockPosition} (rs : List StockPosition)
    (h : ¬(r.warehouse_id = wid ∧ r.material_id = m)) :
    matchesPair wid m (r :: rs) = matchesPair wid m rs := by
  simp only [matchesPair, List.filter_cons, pairPred_false h]
  rfl

theorem bumpFirst_filter_sum (wid m : Nat) (q : Int) (l : List StockPosition)
    (h : matchesPair wid m l ≠ []) :
    sumQ ((bumpFirst wid m q l).filter (fun r => r.warehouse_id == wid)) =
      sumQ (l.filter (fun r => r.warehouse_id == wid)) + q := by
  induction l with
  | nil => exact absurd rfl h
  | cons r rs ih =>
      by_cases hr : r.warehouse_id = wid ∧ r.material_id = m
      · rw [bumpFirst_cons_pos q rs hr]
        have hw : (r.warehouse_id == wid) = true := by simp [hr.1]
        simp only [List.filter_cons, hw, if_true, sumQ_cons]
        ring
      · rw [bumpFirst_cons_neg q rs hr]
        have h' : matchesPair wid m rs ≠ [] := by
          rw [matchesPair_cons_neg rs hr] at h
          exact h
        by_cases hw : (r.warehouse_id == wid) = true
        · simp only [List.filter_cons, hw, if_true, sumQ_cons, ih h']
          ring
        · simp only [List.filter_cons, hw, if_false, Bool.false_eq_true]
          exact ih h'

theorem bumpFirst_matchesPair (wid m : Nat) (q : Int) (l : List StockPosition)
    (s : StockPosition) (h : matchesPair wid m l = [s]) :
    matchesPair wid m (bumpFirst wid m q l) = [{ s with quantity := s.quantity + q }] := by
  induction l with
  | nil => simp [matchesPair] at h
  | cons r rs ih =>
      by_cases hr : r.warehouse_id = wid ∧ r.material_id = m
      · rw [matchesPair_cons_pos rs hr] at h
        injection h with h1 h2
        subst h1
        rw [bumpFirst_cons_pos q rs hr]
        have hr' : ({ r with quantity := r.quantity + q } : StockPosition).warehouse_id = wid ∧
            ({ r with quantity := r.quantity + q } : StockPosition).material_id = m := hr
        rw [matchesPair_cons_pos rs hr', h2]
      · rw [matchesPair_cons_neg rs hr] at h
        rw [bumpFirst_cons_neg q rs hr, matchesPair_cons_neg _ hr]
        exact ih h

theorem mem_of_bumpFirst {wid m : Nat} {q : Int} {l : List StockPosition}
    {wtarget : Nat} (hall : ∀ r ∈ l, r.warehouse_id = wtarget) :
    ∀ r ∈ bumpFirst wid m q l, r.warehouse_id = wtarget := by
  intro r hr
  have hmap : r.warehouse_id ∈ (bumpFirst wid m q l).map (fun r => r.warehouse_id) :=
    List.mem_map_of_mem _ hr
  rw [bumpFirst_warehouse_ids] at hmap
  obtain ⟨r0, hr0, he⟩ := List.mem_map.mp hmap
  rw [← he]
  exact hall r0 hr0

/-- One successful loop iteration adds exactly the item's quantity to the
warehouse's total staged stock, and every row staged for creation still
belongs to the target warehouse. -/
theorem deliveryStep_ok_sum (fk : Bool) (mats : List Nat) (w : Warehouse)
    (rows created : List StockPosition) (p : DeliveryPosition)
    (rows1 created1 : List StockPosition)
    (hc : ∀ r ∈ created, r.warehouse_id = w.id)
    (h : deliveryStep fk mats w rows created p = .ok (rows1, created1)) :
    sumQ ((rows1 ++ created1).filter (fun r => r.warehouse_id == w.id)) =
      sumQ ((rows ++ created).filter (fun r => r.warehouse_id == w.id)) + p.quantity ∧
    (∀ r ∈ created1, r.warehouse_id = w.id) := by
  unfold deliveryStep at h
  split at h
  · exact absurd h (by simp)
  · cases hm : matchesPair w.id p.material_id (rows ++ created) with
    | nil =>
        simp only [hm] at h
        split at h
        · exact absurd h (by simp)
        · simp only [Except.ok.injEq, Prod.mk.injEq] at h
          obtain ⟨h1, h2⟩ := h
          subst h1
          subst h2
          constructor
          · have hone : List.filter (fun r => r.warehouse_id == w.id)
                [(⟨w.id, p.material_id, p.quantity⟩ : StockPosition)] =
                [⟨w.id, p.material_id, p.quantity⟩] := by
              simp [List.filter_cons]
            rw [List.filter_append, List.filter_append, List.filter_append, hone,
              sumQ_append, sumQ_append, sumQ_append]
            simp [sumQ]
            ring
          · intro r hr
            rcases List.mem_append.mp hr with h' | h'
            · exact hc r h'
            · rcases List.mem_singleton.mp h' with rfl
              rfl
    | cons s tail =>
        cases tail with
        | nil =>
            simp only [hm] at h
            split at h
            · -- the unique match is staged for creation: bump `created`
              rename_i hempty
              simp only [Except.ok.injEq, Prod.mk.injEq] at h
              obtain ⟨h1, h2⟩ := h
              subst h1
              subst h2
              have hrowsnil : matchesPair w.id p.material_id rows = [] :=
                List.isEmpty_iff.mp hempty
              have hcreated : matchesPair w.id p.material_id created = [s] := by
                rw [matchesPair_append, hrowsnil, List.nil_append] at hm
                exact hm
              have hne : matchesPair w.id p.material_id created ≠ [] := by
                rw [hcreated]
                simp
              constructor
              · rw [List.filter_append, List.filter_append, sumQ_append, sumQ_append,
                  bumpFirst_filter_sum w.id p.material_id p.quantity created hne]
                ring
              · exact mem_of_bumpFirst hc
            · -- the unique match is an identity-mapped loaded row: bump `rows`
              rename_i hempty
              simp only [Except.ok.injEq, Prod.mk.injEq] at h
              obtain ⟨h1, h2⟩ := h
              subst h1
              subst h2
              have hne : matchesPair w.id p.material_id rows ≠ [] := by
                intro hnil
                exact hempty (List.isEmpty_iff.mpr hnil)
              constructor
              · rw [List.filter_append, List.filter_append, sumQ_append, sumQ_append,
                  bumpFirst_filter_sum w.id p.material_id p.quantity rows hne]
                ring
              · exact hc
        | cons s2 t2 =>
            simp only [hm] at h
            exact absurd h (by simp)

/-- Over a whole successful delivery loop, the warehouse's total staged
stock grows by exactly the delivered sum. -/
theorem processPositions_ok_sum (fk : Bool) (mats : List Nat) (w : Warehouse)
    (ps : List DeliveryPosition) :
    ∀ rows created rows' created' : List StockPosition,
      (∀ r ∈ created, r.warehouse_id = w.id) →
      processPositions fk mats w rows created ps = .ok (rows', created') →
      sumQ ((rows' ++ created').filter (fun r => r.warehouse_id == w.id)) =
        sumQ ((rows ++ created).filter (fun r => r.warehouse_id == w.id)) +
          sumDelivered ps := by
  induction ps with
  | nil =>
      intro rows created rows' created' hc h
      simp only [processPositions, Except.ok.injEq, Prod.mk.injEq] at h
      obtain ⟨h1, h2⟩ := h
      subst h1
      subst h2
      simp [sumDelivered]
  | cons p ps ih =>
      intro rows created rows' created' hc h
      rw [processPositions] at h
      cases hstep : deliveryStep fk mats w rows created p with
      | error e => rw [hstep] at h; exact absurd h (by simp)
      | ok rc =>
          obtain ⟨rows1, created1⟩ := rc
          rw [hstep] at h
          obtain ⟨hsum, hinv⟩ :=
            deliveryStep_ok_sum fk mats w rows created p rows1 created1 hc hstep
          rw [ih rows1 created1 rows' created' hinv h, hsum, sumDelivered_cons]
          ring

instance {ε α : Type} [DecidableEq ε] [DecidableEq α] : DecidableEq (Except ε α) :=
  fun x y =>
    match x, y with
    | .ok a, .ok b =>
        if h : a = b then isTrue (by rw [h])
        else isFalse (by intro hc; injection hc; contradiction)
    | .error a, .error b =>
        if h : a = b then isTrue (by rw [h])
        else isFalse (by intro hc; injection hc; contradiction)
    | .ok _, .error _ => isFalse (by intro hc; exact Except.noConfusion hc)
    | .error _, .ok _ => isFalse (by intro hc; exact Except.noConfusion hc)

/-! ## Concrete stores used by the claim theorems -/

/-- A warehouse with max_capacity 2 and no stock, with two known materials. -/
def c1db : DB := ⟨[⟨1, "Test Warehouse", "test-warehouse", "Wien", 2⟩], [10, 11], []⟩

/-- The delivery whose items fit individually but overflow in sum. -/
def c1delivery : Delivery := ⟨1, [⟨10, 2⟩, ⟨11, 1⟩]⟩

/-- A warehouse with max_capacity 10 holding 5 units of material 10. -/
def c3db : DB := ⟨[⟨1, "Test Warehouse", "test-warehouse", "Wien", 10⟩], [10], [⟨1, 10, 5⟩]⟩

/-- A store with one warehouse (id 1) and one material (id 10). -/
def c5db : DB := ⟨[⟨1, "Test Warehouse", "test-warehouse", "Wien", 100⟩], [10], []⟩

/-- A store with one warehouse (id 1) and one material (id 10); material 99
does not exist. -/
def c6db : DB := ⟨[⟨1, "Test Warehouse", "test-warehouse", "Wien", 100⟩], [10], []⟩

/-! ## Claim theorems -/

/-- C1: the claim states that a delivery whose existing-stock sum plus
delivered sum exceeds max_capacity always fails with CapacityExceeded, the
per-item check seeing the depletion staged by earlier items of the same
delivery.  The code does not do this: rows created earlier in the same
delivery are invisible to the cached stock collection that the capacity
check reads, so a delivery of quantities 2 and 1 into an empty warehouse of
max_capacity 2 is committed (HTTP 201) with final stock sum 3 and derived
capacity -1, where the claim requires a 400 CapacityExceeded failure with
the stock unchanged. -/
theorem c1_sum_overflow_committed :
    DeliveryRouter.create true c1db c1delivery =
      .ok ⟨[⟨1, "Test Warehouse", "test-warehouse", "Wien", 2⟩], [10, 11],
            [⟨1, 10, 2⟩, ⟨1, 11, 1⟩]⟩
          ⟨1, "Test Warehouse", "test-warehouse", "Wien", 2, -1,
            [⟨1, 10, 2⟩, ⟨1, 11, 1⟩]⟩ ∧
    sumQ (stockOf c1db 1) + sumDelivered c1delivery.positions > 2 ∧
    (DeliveryRouter.create true c1db c1delivery).status = 201 := by
  decide

/-- C3 counterexample: the claim states that a negative line-item quantity
is rejected by validation before the engine runs.  `DeliveryPosition`
declares `quantity: int` with no bound, so validation accepts -5, and the
engine processes it, subtracting 5 from the existing stock position. -/
theorem c3_negative_quantity_accepted :
    validateDeliveryPosition 10 (-5) = .ok ⟨10, -5⟩ ∧
    DeliveryRouter.create true c3db ⟨1, [⟨10, -5⟩]⟩ =
      .ok ⟨[⟨1, "Test Warehouse", "test-warehouse", "Wien", 10⟩], [10], [⟨1, 10, 0⟩]⟩
          ⟨1, "Test Warehouse", "test-warehouse", "Wien", 10, 10, [⟨1, 10, 0⟩]⟩ :=
  ⟨rfl, by decide⟩

/-- C3 amended: request validation of a delivery line item places no bound
on the quantity, so every integer quantity, negative ones included, is
accepted into the reconciliation engine. -/
theorem c3_amended_no_quantity_bound (m : Nat) (q : Int) :
    validateDeliveryPosition m q = .ok ⟨m, q⟩ :=
  rfl

/-- C5 counterexample: the claim states that a delivery naming an unknown
warehouse fails with NotFound (404).  The RepositoryException raised by
`find_by_id` is only caught by the delivery handler's generic
`except Exception` clause, so the failure surfaces as Internal (500). -/
theorem c5_missing_warehouse_gives_internal :
    DeliveryRouter.create true c5db ⟨2, [⟨10, 1⟩]⟩ = .internal c5db ∧
    (DeliveryRouter.create true c5db ⟨2, [⟨10, 1⟩]⟩).status = 500 ∧
    (500 : Nat) ≠ 404 := by
  decide

/-- C5 amended: for every delivery whose warehouse identifier matches no
stored warehouse, the handler fails with Internal (HTTP 500, the
RepositoryException escaping to the generic handler), and this failure
occurs before any mutation is staged or committed: the store is returned
unchanged. -/
theorem c5_amended_internal_before_mutation (fk : Bool) (db : DB) (d : Delivery)
    (hw : db.warehouses.filter (fun x => x.id == d.warehouse_id) = []) :
    DeliveryRouter.create fk db d = .internal db ∧
    (DeliveryRouter.create fk db d).status = 500 := by
  have hmain : DeliveryRouter.create fk db d = .internal db := by
    unfold DeliveryRouter.create
    simp only [hw]
  exact ⟨hmain, by rw [hmain]; rfl⟩

/-- Witness for C5 amended at a concrete store and delivery. -/
theorem c5_amended_internal_before_mutation_witness :
    DeliveryRouter.create true c5db ⟨7, []⟩ = .internal c5db ∧
    (DeliveryRouter.create true c5db ⟨7, []⟩).status = 500 :=
  c5_amended_internal_before_mutation true c5db ⟨7, []⟩ (by decide)

/-- C6 counterexample: the claim states that a delivery referencing a
material the store rejects via a foreign-key violation surfaces NotFound.
The handler catches the IntegrityError and answers 409 Conflict (with
rollback), not 404. -/
theorem c6_fk_violation_gives_conflict :
    DeliveryRouter.create true c6db ⟨1, [⟨99, 5⟩]⟩ = .conflict c6db ∧
    (DeliveryRouter.create true c6db ⟨1, [⟨99, 5⟩]⟩).status = 409 ∧
    (409 : Nat) ≠ 404 := by
  decide

/-- C6 amended: a single-item delivery whose material id does not exist,
into an existing warehouse with room for it and no stock row for the pair,
fails with Conflict (HTTP 409, the IntegrityError branch) on a store that
enforces foreign keys, and the transaction is rolled back: the store is
returned unchanged. -/
theorem c6_amended_conflict_rollback (db : DB) (w : Warehouse) (m : Nat) (q : Int)
    (hw : db.warehouses.filter (fun x => x.id == w.id) = [w])
    (hcap : ¬ Warehouse.capacity w (some (stockOf db w.id)) < q)
    (hnone : matchesPair w.id m db.stock = [])
    (hm : m ∉ db.materials) :
    DeliveryRouter.create true db ⟨w.id, [⟨m, q⟩]⟩ = .conflict db ∧
    (DeliveryRouter.create true db ⟨w.id, [⟨m, q⟩]⟩).status = 409 := by
  have hnone' : matchesPair w.id m (db.stock ++ []) = [] := by
    rw [List.append_nil]
    exact hnone
  have hmain : DeliveryRouter.create true db ⟨w.id, [⟨m, q⟩]⟩ = .conflict db := by
    unfold DeliveryRouter.create
    simp only [hw]
    unfold processPositions deliveryStep
    simp only [stockOf] at hcap
    rw [if_neg hcap]
    simp only [hnone']
    rw [if_pos ⟨by trivial, hm⟩]
  exact ⟨hmain, by rw [hmain]; rfl⟩

/-- Witness for C6 amended at a concrete store and delivery. -/
theorem c6_amended_conflict_rollback_witness :
    DeliveryRouter.create true c6db ⟨1, [⟨99, 5⟩]⟩ = .conflict c6db ∧
    (DeliveryRouter.create true c6db ⟨1, [⟨99, 5⟩]⟩).status = 409 :=
  c6_amended_conflict_rollback c6db ⟨1, "Test Warehouse", "test-warehouse", "Wien", 100⟩
    99 5 (by decide) (by decide) (by decide) (by decide)

/-- C2: for every delivery that succeeds, the warehouse's stock-quantity
sum afterwards equals the sum before plus the delivered sum, and the
returned value is the refreshed warehouse: its derived capacity equals its
max_capacity minus the new stock sum, its stock being the warehouse's
post-commit stock rows. -/
theorem c2_delivery_sum (fk : Bool) (db db' : DB) (d : Delivery)
    (resp : WarehouseResponse)
    (h : DeliveryRouter.create fk db d = .ok db' resp) :
    sumQ (stockOf db' d.warehouse_id) =
      sumQ (stockOf db d.warehouse_id) + sumDelivered d.positions ∧
    resp.capacity = resp.max_capacity - sumQ resp.stock ∧
    resp.stock = stockOf db' d.warehouse_id := by
  unfold DeliveryRouter.create at h
  cases hw : db.warehouses.filter (fun x => x.id == d.warehouse_id) with
  | nil =>
      simp only [hw] at h
      exact absurd h (by simp)
  | cons w tail =>
      cases tail with
      | cons w2 t2 =>
          simp only [hw] at h
          exact absurd h (by simp)
      | nil =>
          simp only [hw] at h
          have hwid : w.id = d.warehouse_id := by
            have hmem : w ∈ db.warehouses.filter (fun x => x.id == d.warehouse_id) := by
              rw [hw]
              exact List.mem_singleton.mpr rfl
            simpa using (List.mem_filter.mp hmem).2
          cases hp : processPositions fk db.materials w db.stock [] d.positions with
          | error e =>
              simp only [hp] at h
              cases e <;> simp at h
          | ok rc =>
              obtain ⟨rows', created'⟩ := rc
              simp only [hp] at h
              simp only [HandlerResult.ok.injEq] at h
              obtain ⟨hdb, hresp⟩ := h
              subst hdb
              subst hresp
              have hsum := processPositions_ok_sum fk db.materials w d.positions
                db.stock [] rows' created' (by intro r hr; cases hr) hp
              rw [List.append_nil] at hsum
              refine ⟨?_, ?_, ?_⟩
              · simp only [stockOf]
                rw [← hwid]
                exact hsum
              · simp [warehouseResponse, Warehouse.capacity]
              · simp only [warehouseResponse, stockOf]
                rw [hwid]

/-- Store before the witness delivery for C2. -/
def c2db : DB := ⟨[⟨1, "W House", "w-house", "Wien", 100⟩], [10, 11], []⟩

/-- The witness delivery for C2 (spec Example 1). -/
def c2delivery : Delivery := ⟨1, [⟨10, 2⟩, ⟨11, 1⟩]⟩

/-- Store after the witness delivery for C2. -/
def c2dbAfter : DB :=
  ⟨[⟨1, "W House", "w-house", "Wien", 100⟩], [10, 11], [⟨1, 10, 2⟩, ⟨1, 11, 1⟩]⟩

/-- Response of the witness delivery for C2. -/
def c2resp : WarehouseResponse :=
  ⟨1, "W House", "w-house", "Wien", 100, 97, [⟨1, 10, 2⟩, ⟨1, 11, 1⟩]⟩

/-- Witness for C2 on spec Example 1: max_capacity 100, deliver quantities
2 and 1, resulting capacity 97. -/
theorem c2_delivery_sum_witness :
    sumQ (stockOf c2dbAfter c2delivery.warehouse_id) =
      sumQ (stockOf c2db c2delivery.warehouse_id) + sumDelivered c2delivery.positions ∧
    c2resp.capacity = c2resp.max_capacity - sumQ c2resp.stock ∧
    c2resp.stock = stockOf c2dbAfter c2delivery.warehouse_id :=
  c2_delivery_sum true c2db c2dbAfter c2delivery c2resp (by decide)

/-- Fresh store for spec Example 5 (warehouse 1, material 10, no stock). -/
def ex5db : DB := ⟨[⟨1, "W House", "w-house", "Wien", 100⟩], [10], []⟩

/-- Store after the first Example 5 delivery. -/
def ex5dbMid : DB := ⟨[⟨1, "W House", "w-house", "Wien", 100⟩], [10], [⟨1, 10, 5⟩]⟩

/-- Store after the second Example 5 delivery: one row with quantity 10. -/
def ex5dbEnd : DB := ⟨[⟨1, "W House", "w-house", "Wien", 100⟩], [10], [⟨1, 10, 10⟩]⟩

/-- Response of the first Example 5 delivery. -/
def ex5respMid : WarehouseResponse :=
  ⟨1, "W House", "w-house", "Wien", 100, 95, [⟨1, 10, 5⟩]⟩

/-- Response of the second Example 5 delivery. -/
def ex5respEnd : WarehouseResponse :=
  ⟨1, "W House", "w-house", "Wien", 100, 90, [⟨1, 10, 10⟩]⟩

/-- C4: a line item whose (warehouse, material) pair has no stock row
stages the creation of a new row with exactly the requested quantity, and
one whose pair has exactly one row increments that row's quantity by the
requested amount without adding a row; hence two sequential deliveries of
the same material (Example 5: quantity 5 twice into a fresh warehouse)
leave one stock row with quantity 10 instead of a second row. -/
theorem c4_find_or_create (fk : Bool) (mats : List Nat) (w : Warehouse)
    (rows created : List StockPosition) (p : DeliveryPosition)
    (hcap : ¬ Warehouse.capacity w
        (some (rows.filter (fun r => r.warehouse_id == w.id))) < p.quantity) :
    (matchesPair w.id p.material_id (rows ++ created) = [] →
      ¬(fk = true ∧ p.material_id ∉ mats) →
      deliveryStep fk mats w rows created p =
        .ok (rows, created ++ [⟨w.id, p.material_id, p.quantity⟩])) ∧
    (∀ s, matchesPair w.id p.material_id rows = [s] →
      matchesPair w.id p.material_id created = [] →
      deliveryStep fk mats w rows created p =
        .ok (bumpFirst w.id p.material_id p.quantity rows, created) ∧
      matchesPair w.id p.material_id (bumpFirst w.id p.material_id p.quantity rows) =
        [{ s with quantity := s.quantity + p.quantity }]) ∧
    (DeliveryRouter.create true ex5db ⟨1, [⟨10, 5⟩]⟩ = .ok ex5dbMid ex5respMid ∧
     DeliveryRouter.create true ex5dbMid ⟨1, [⟨10, 5⟩]⟩ = .ok ex5dbEnd ex5respEnd) := by
  refine ⟨?_, ?_, by decide⟩
  · intro hm hfk
    unfold deliveryStep
    rw [if_neg hcap]
    simp only [hm]
    rw [if_neg hfk]
  · intro s hs hcnone
    have hm : matchesPair w.id p.material_id (rows ++ created) = [s] := by
      rw [matchesPair_append, hs, hcnone]
      rfl
    refine ⟨?_, bumpFirst_matchesPair w.id p.material_id p.quantity rows s hs⟩
    unfold deliveryStep
    rw [if_neg hcap]
    simp only [hm]
    rw [hs]
    rw [if_neg (show ¬(List.isEmpty [s] = true) by simp)]

/-- Concrete warehouse used by the C4 witness. -/
def c4w : Warehouse := ⟨1, "W House", "w-house", "Wien", 100⟩

/-- Witness for C4: a not-found item stages a new row, a found item
increments the unique existing row from 7 to 12. -/
theorem c4_find_or_create_witness :
    deliveryStep true [10, 20] c4w [⟨1, 20, 7⟩] [] ⟨10, 5⟩ =
      .ok ([⟨1, 20, 7⟩], [] ++ [⟨1, 10, 5⟩]) ∧
    (deliveryStep true [10, 20] c4w [⟨1, 20, 7⟩] [] ⟨20, 5⟩ =
      .ok (bumpFirst 1 20 5 [⟨1, 20, 7⟩], []) ∧
     matchesPair 1 20 (bumpFirst 1 20 5 [⟨1, 20, 7⟩]) = [⟨1, 20, 12⟩]) := by
  constructor
  · exact (c4_find_or_create true [10, 20] c4w [⟨1, 20, 7⟩] [] ⟨10, 5⟩
      (by decide)).1 (by decide) (by decide)
  · have h := (c4_find_or_create true [10, 20] c4w [⟨1, 20, 7⟩] [] ⟨20, 5⟩
      (by decide)).2.1 ⟨1, 20, 7⟩ (by decide) (by decide)
    exact ⟨h.1, h.2.trans (by decide)⟩

theorem slugAux_chars (l : List Char) :
    ∀ b : Bool, ∀ c ∈ slugAux b l, isSlugKeep c = true ∨ c = '-' := by
  induction l with
  | nil =>
      intro b c hc
      cases hc
  | cons a t ih =>
      intro b c hc
      by_cases ha : isSlugKeep a = true
      · rw [slugAux, if_pos ha] at hc
        rcases List.mem_cons.mp hc with rfl | h
        · exact .inl ha
        · exact ih true c h
      · rw [slugAux, if_neg ha] at hc
        by_cases hb : (b && t.any isSlugKeep) = true
        · rw [if_pos hb] at hc
          rcases List.mem_cons.mp hc with rfl | h
          · exact .inr rfl
          · exact ih false c h
        · rw [if_neg hb] at hc
          exact ih b c hc

/-- C7: slug derivation is a pure function of the name; every character of
the derived slug is a lowercase ASCII letter, a digit or a hyphen; when the
derived slug is non-empty, construction succeeds with exactly that slug
(so deriving twice from the same name yields the same slug), and when the
derivation comes out empty, construction fails with a ValidationError. -/
theorem c7_slug_contract (name : String) :
    (∀ c ∈ (slugify name).toList, isSlugKeep c = true ∨ c = '-') ∧
    (slugify name ≠ "" → NamedMixin.init name none = .ok (slugify name)) ∧
    (slugify name = "" →
      NamedMixin.init name none = .error ⟨"slug must have at least 1 character"⟩) := by
  refine ⟨?_, ?_, ?_⟩
  · intro c hc
    exact slugAux_chars (name.toList.map Char.toLower) false c hc
  · intro hne
    show (if slugify name = "" then
        (.error ⟨"slug must have at least 1 character"⟩ : Except ValidationError String)
      else .ok (slugify name)) = .ok (slugify name)
    rw [if_neg hne]
  · intro he
    show (if slugify name = "" then
        (.error ⟨"slug must have at least 1 character"⟩ : Except ValidationError String)
      else .ok (slugify name)) = .error ⟨"slug must have at least 1 character"⟩
    rw [if_pos he]

/-- Witness for C7 at the names "Hello, World!" (derives "hello-world")
and "!!" (derives the empty string and is rejected). -/
theorem c7_slug_contract_witness :
    (isSlugKeep 'h' = true ∨ 'h' = '-') ∧
    NamedMixin.init "Hello, World!" none = .ok (slugify "Hello, World!") ∧
    NamedMixin.init "!!" none = .error ⟨"slug must have at least 1 character"⟩ :=
  ⟨(c7_slug_contract "Hello, World!").1 'h' (by decide),
   (c7_slug_contract "Hello, World!").2.1 (by decide),
   (c7_slug_contract "!!").2.2 (by decide)⟩

/-- C8: every repository operation invoked on a repository not bound to a
session fails with the configuration error "database session not
initialized", which is distinct from each entity's NotFound error, and no
operation touches any data (the error carries no staged rows). -/
theorem c8_unbound_repository {α : Type} [DecidableEq α]
    (repo : SQLRepository α) (sp : SQLRepository StockPosition)
    (h : repo.session = none) (hsp : sp.session = none)
    (idOf : α → Nat) (slugOf : α → String) (modelName : String)
    (id offset limit : Nat) (slug : String) (record : α) (wid mid : Nat) :
    repo.find_by_id idOf modelName id = .err sessionGuardError ∧
    repo.find_by_slug slugOf modelName slug = .err sessionGuardError ∧
    repo.list_paginated offset limit = .err sessionGuardError ∧
    repo.create record = .err sessionGuardError ∧
    repo.update record = .err sessionGuardError ∧
    repo.delete record = .err sessionGuardError ∧
    StockPositionSQLRepository.find_by_warehouse_id_and_material_id sp wid mid =
      .err sessionGuardError ∧
    sessionGuardError ≠ notFoundErr (camel_to_lower_with_spaces "Warehouse") ∧
    sessionGuardError ≠ notFoundErr (camel_to_lower_with_spaces "Material") ∧
    sessionGuardError ≠ notFoundErr (camel_to_lower_with_spaces "Product") ∧
    sessionGuardError ≠ notFoundErr (camel_to_lower_with_spaces "StockPosition") := by
  refine ⟨?_, ?_, ?_, ?_, ?_, ?_, ?_, by decide, by decide, by decide, by decide⟩
  · simp [SQLRepository.find_by_id, h]
  · simp [SQLRepository.find_by_slug, h]
  · simp [SQLRepository.list_paginated, h]
  · simp [SQLRepository.create, h]
  · simp [SQLRepository.update, h]
  · simp [SQLRepository.delete, h]
  · simp [StockPositionSQLRepository.find_by_warehouse_id_and_material_id, hsp]

/-- Witness for C8 on a warehouse repository and a stock-position
repository, both with no bound session. -/
theorem c8_unbound_repository_witness :
    SQLRepository.find_by_id (⟨none⟩ : SQLRepository Warehouse)
      (fun x => x.id) "warehouse" 1 = .err sessionGuardError ∧
    SQLRepository.find_by_slug (⟨none⟩ : SQLRepository Warehouse)
      (fun x => x.slug) "warehouse" "w-house" = .err sessionGuardError ∧
    SQLRepository.list_paginated (⟨none⟩ : SQLRepository Warehouse) 0 10 =
      .err sessionGuardError ∧
    SQLRepository.create (⟨none⟩ : SQLRepository Warehouse)
      ⟨1, "W House", "w-house", "Wien", 100⟩ = .err sessionGuardError ∧
    SQLRepository.update (⟨none⟩ : SQLRepository Warehouse)
      ⟨1, "W House", "w-house", "Wien", 100⟩ = .err sessionGuardError ∧
    SQLRepository.delete (⟨none⟩ : SQLRepository Warehouse)
      ⟨1, "W House", "w-house", "Wien", 100⟩ = .err sessionGuardError ∧
    StockPositionSQLRepository.find_by_warehouse_id_and_material_id
      (⟨none⟩ : SQLRepository StockPosition) 1 2 = .err sessionGuardError ∧
    sessionGuardError ≠ notFoundErr (camel_to_lower_with_spaces "Warehouse") ∧
    sessionGuardError ≠ notFoundErr (camel_to_lower_with_spaces "Material") ∧
    sessionGuardError ≠ notFoundErr (camel_to_lower_with_spaces "Product") ∧
    sessionGuardError ≠ notFoundErr (camel_to_lower_with_spaces "StockPosition") :=
  c8_unbound_repository (⟨none⟩ : SQLRepository Warehouse)
    (⟨none⟩ : SQLRepository StockPosition) rfl rfl
    (fun x => x.id) (fun x => x.slug) "warehouse" 1 0 10 "w-house"
    ⟨1, "W House", "w-house", "Wien", 100⟩ 1 2

/-- C9: a delivery with an empty line-item list succeeds as a no-op,
returning the warehouse with its stock unchanged; a zero-quantity line
item for a material with no stock row is accepted and stages a row with
quantity 0; a zero-quantity line item for a material with an existing row
is accepted and leaves the stock unchanged.  The zero-quantity parts
assume the spec invariant that the warehouse's derived capacity is not
negative (the code rejects any item, even of quantity 0, when capacity is
already negative). -/
theorem c9_zero_quantity_edge_cases (fk : Bool) (db : DB) (w : Warehouse)
    (hw : db.warehouses.filter (fun x => x.id == w.id) = [w]) :
    (DeliveryRouter.create fk db ⟨w.id, []⟩ =
      .ok db (warehouseResponse w (stockOf db w.id))) ∧
    (∀ m : Nat, (fk = true → m ∈ db.materials) →
      matchesPair w.id m db.stock = [] →
      0 ≤ Warehouse.capacity w (some (stockOf db w.id)) →
      DeliveryRouter.create fk db ⟨w.id, [⟨m, 0⟩]⟩ =
        .ok { db with stock := db.stock ++ [⟨w.id, m, 0⟩] }
            (warehouseResponse w (stockOf db w.id ++ [⟨w.id, m, 0⟩]))) ∧
    (∀ m : Nat, ∀ s : StockPosition, matchesPair w.id m db.stock = [s] →
      0 ≤ Warehouse.capacity w (some (stockOf db w.id)) →
      DeliveryRouter.create fk db ⟨w.id, [⟨m, 0⟩]⟩ =
        .ok db (warehouseResponse w (stockOf db w.id))) := by
  refine ⟨?_, ?_, ?_⟩
  · unfold DeliveryRouter.create
    dsimp only
    simp only [hw, processPositions]
    rw [List.append_nil]
    rfl
  · intro m hmfk hnone hcap
    have hcap' : ¬ Warehouse.capacity w
        (some (db.stock.filter (fun r => r.warehouse_id == w.id))) < (0 : Int) :=
      not_lt.mpr hcap
    have hnone' : matchesPair w.id m (db.stock ++ []) = [] := by
      rw [List.append_nil]
      exact hnone
    have hfk' : ¬(fk = true ∧ m ∉ db.materials) := by
      rintro ⟨h1, h2⟩
      exact h2 (hmfk h1)
    have hstep : deliveryStep fk db.materials w db.stock [] ⟨m, 0⟩ =
        .ok (db.stock, [⟨w.id, m, 0⟩]) := by
      unfold deliveryStep
      dsimp only
      rw [if_neg hcap']
      simp only [hnone']
      rw [if_neg hfk']
      rfl
    have hpp : processPositions fk db.materials w db.stock [] [⟨m, 0⟩] =
        .ok (db.stock, [⟨w.id, m, 0⟩]) := by
      simp only [processPositions, hstep]
    unfold DeliveryRouter.create
    dsimp only
    simp only [hw, hpp]
    have hfilt : (db.stock ++ [(⟨w.id, m, 0⟩ : StockPosition)]).filter
        (fun r => r.warehouse_id == w.id) = stockOf db w.id ++ [⟨w.id, m, 0⟩] := by
      rw [List.filter_append]
      simp [stockOf, List.filter_cons]
    rw [hfilt]
  · intro m s hs hcap
    have hcap' : ¬ Warehouse.capacity w
        (some (db.stock.filter (fun r => r.warehouse_id == w.id))) < (0 : Int) :=
      not_lt.mpr hcap
    have hm : matchesPair w.id m (db.stock ++ []) = [s] := by
      rw [List.append_nil]
      exact hs
    have hstep : deliveryStep fk db.materials w db.stock [] ⟨m, 0⟩ =
        .ok (db.stock, []) := by
      unfold deliveryStep
      dsimp only
      rw [if_neg hcap']
      simp only [hm]
      rw [hs]
      rw [if_neg (show ¬(List.isEmpty [s] = true) by simp)]
      rw [bumpFirst_zero]
    have hpp : processPositions fk db.materials w db.stock [] [⟨m, 0⟩] =
        .ok (db.stock, []) := by
      simp only [processPositions, hstep]
    unfold DeliveryRouter.create
    dsimp only
    simp only [hw, hpp]
    rw [List.append_nil]
    rfl

/-- Store for the C9 witness: warehouse 1 (max_capacity 10), materials 10
and 20, one stock row for material 20. -/
def c9db : DB := ⟨[⟨1, "W House", "w-house", "Wien", 10⟩], [10, 20], [⟨1, 20, 3⟩]⟩

/-- Warehouse row of the C9 witness store. -/
def c9w : Warehouse := ⟨1, "W House", "w-house", "Wien", 10⟩

/-- Witness for C9: empty delivery is a no-op; a zero-quantity item for
material 10 stages a zero row; a zero-quantity item for material 20 leaves
the existing row unchanged. -/
theorem c9_zero_quantity_edge_cases_witness :
    (DeliveryRouter.create true c9db ⟨c9w.id, []⟩ =
      .ok c9db (warehouseResponse c9w (stockOf c9db c9w.id))) ∧
    (DeliveryRouter.create true c9db ⟨c9w.id, [⟨10, 0⟩]⟩ =
      .ok { c9db with stock := c9db.stock ++ [⟨c9w.id, 10, 0⟩] }
          (warehouseResponse c9w (stockOf c9db c9w.id ++ [⟨c9w.id, 10, 0⟩]))) ∧
    (DeliveryRouter.create true c9db ⟨c9w.id, [⟨20, 0⟩]⟩ =
      .ok c9db (warehouseResponse c9w (stockOf c9db c9w.id))) := by
  have h := c9_zero_quantity_edge_cases true c9db c9w (by decide)
  exact ⟨h.1, h.2.1 10 (fun _ => by decide) (by decide) (by decide),
    h.2.2 20 ⟨1, 20, 3⟩ (by decide) (by decide)⟩

/-- C10: the warehouse patch accepts any max_capacity of at least 1
without checking it against the warehouse's existing stock: for a
warehouse whose stock quantities sum to S, a patch with 1 ≤ m < S
succeeds, and the warehouse's derived capacity afterwards is m - S, which
is negative. -/
theorem c10_patch_ignores_stock (db : DB) (w : Warehouse) (slug : String) (m : Int)
    (hw : db.warehouses.filter (fun x => x.slug == slug) = [w])
    (huniq : ∀ x ∈ db.warehouses, x.location = w.location → x.slug = slug)
    (hm : 1 ≤ m) (hS : m < sumQ (stockOf db w.id)) :
    WarehousePatch.valid ⟨none, some m⟩ ∧
    WarehousesRouter.update_warehouse db slug ⟨none, some m⟩ =
      .ok { db with warehouses := db.warehouses.map (fun x => if x.slug == slug then { w with max_capacity := m } else x) }
          ⟨w.name, w.slug, w.location, m - sumQ (stockOf db w.id), m⟩ ∧
    m - sumQ (stockOf db w.id) < 0 := by
  refine ⟨⟨?_, ?_⟩, ?_, by omega⟩
  · intro l hl
    exact Option.noConfusion hl
  · intro m' hm'
    injection hm' with he
    rw [← he]
    exact hm
  · have hany : db.warehouses.any
        (fun x => x.slug != slug && x.location == w.location) = false := by
      rw [List.any_eq_false]
      intro x hx hpx
      simp only [Bool.and_eq_true, bne_iff_ne, beq_iff_eq] at hpx
      exact hpx.1 (huniq x hx hpx.2)
    unfold WarehousesRouter.update_warehouse
    simp only [hw]
    dsimp only [Option.getD, Option.isSome]
    rw [if_pos (by trivial)]
    rw [if_neg (by rw [hany]; simp : ¬(db.warehouses.any
      (fun x => x.slug != slug && x.location == w.location) = true))]
    rfl

/-- Store for the C10 witness: warehouse 1 with max_capacity 100 holding
50 units of material 10. -/
def c10db : DB := ⟨[⟨1, "W House", "w-house", "Wien", 100⟩], [10], [⟨1, 10, 50⟩]⟩

/-- Warehouse row of the C10 witness store. -/
def c10w : Warehouse := ⟨1, "W House", "w-house", "Wien", 100⟩

/-- Witness for C10: patching max_capacity to 10 under a stock sum of 50
succeeds with derived capacity -40. -/
theorem c10_patch_ignores_stock_witness :
    WarehousePatch.valid ⟨none, some 10⟩ ∧
    WarehousesRouter.update_warehouse c10db "w-house" ⟨none, some 10⟩ =
      .ok { c10db with warehouses := c10db.warehouses.map (fun x => if x.slug == "w-house" then { c10w with max_capacity := 10 } else x) }
          ⟨c10w.name, c10w.slug, c10w.location, 10 - sumQ (stockOf c10db c10w.id), 10⟩ ∧
    (10 : Int) - sumQ (stockOf c10db c10w.id) < 0 :=
  c10_patch_ignores_stock c10db c10w "w-house" 10 (by decide) (by decide)
    (by decide) (by decide)

end Factory
